import Mathlib

/-
Shallow embedding of the PDFium WASM boundary layer
(src/packages/pdfium-wasm/build/pdfium_wasm.cpp).

The wrapper's own state is three process-wide globals:
  * g_libraryInitialized : bool
  * g_renderCancelFlag   : volatile bool
  * g_savedPdfBuffer     : std::vector<uint8_t>
The document engine (PDFium proper) is external to the repository; engine
calls are modelled as oracle parameters (the result the engine would
return) or as entries in an explicit list of emitted engine calls, so that
"the wrapper forwarded the call to the engine" is an observable fact of
the embedding.

Opaque engine handles (FPDF_DOCUMENT, FPDF_PAGE, FPDF_SCHHANDLE, ...) are
modelled as `Option Nat`: `none` is the null handle, `some n` a live
non-null handle value.
-/

/-- `static_cast<int>` of a C++ size value (size_t → 32-bit signed int),
as performed by `PDFium_SaveToMemory` and `PDFium_GetSaveBufferSize`. -/
def toInt32 (n : Nat) : Int :=
  ((n % 2 ^ 32 : Nat) : Int) - (if n % 2 ^ 32 < 2 ^ 31 then (0 : Int) else (2 ^ 32 : Int))

theorem toInt32_of_lt {n : Nat} (h : n < 2 ^ 31) : toInt32 n = (n : Int) := by
  unfold toInt32
  have h32 : n % 2 ^ 32 = n := Nat.mod_eq_of_lt (lt_trans h (by norm_num))
  rw [h32, if_pos h]
  ring

/-! ### Save Buffer subsystem (pdfium_wasm.cpp lines 996-1105) -/

/-- The wrapper-owned global `g_savedPdfBuffer` (a `std::vector<uint8_t>`),
holding the bytes of the most recent serialized document. Bytes are `Nat`
values (each < 256 in any real trace; the bound plays no role here). -/
structure SaveState where
  buffer : List Nat
deriving DecidableEq, Repr

/-- `PDFium_SaveToMemory(doc, flags)`. The engine call `FPDF_SaveAsCopy`
is abstracted by the oracle `engineSave`: `none` means the engine returned
false, `some bs` means it succeeded after streaming the bytes `bs` through
the WriteBlock callback into the local writer. The body follows the C++:
null doc returns 0 immediately; otherwise `g_savedPdfBuffer.clear()` runs
first, then on success the writer's bytes are moved into the global and
their count returned, on failure 0 is returned (the global stays cleared). -/
def PDFium_SaveToMemory (st : SaveState) (doc : Option Nat) (flags : Int)
    (engineSave : Option (List Nat)) : SaveState × Int :=
  match doc with
  | none => (st, 0)
  | some _ =>
    match engineSave with
    | some bs => (⟨bs⟩, toInt32 bs.length)
    | none => (⟨[]⟩, 0)

/-- `PDFium_SaveToMemoryWithVersion(doc, flags, version)`: identical body
to `PDFium_SaveToMemory` except the engine call is `FPDF_SaveWithVersion`. -/
def PDFium_SaveToMemoryWithVersion (st : SaveState) (doc : Option Nat)
    (flags version : Int) (engineSave : Option (List Nat)) : SaveState × Int :=
  match doc with
  | none => (st, 0)
  | some _ =>
    match engineSave with
    | some bs => (⟨bs⟩, toInt32 bs.length)
    | none => (⟨[]⟩, 0)

/-- `PDFium_GetSaveBuffer()`: returns `nullptr` when the buffer is empty,
otherwise `g_savedPdfBuffer.data()`; modelled as `none` versus the byte
contents the returned pointer addresses. -/
def PDFium_GetSaveBuffer (st : SaveState) : Option (List Nat) :=
  if st.buffer = [] then none else some st.buffer

/-- `PDFium_GetSaveBufferSize()`: `static_cast<int>(g_savedPdfBuffer.size())`. -/
def PDFium_GetSaveBufferSize (st : SaveState) : Int :=
  toInt32 st.buffer.length

/-- `PDFium_FreeSaveBuffer()`: `clear()` then `shrink_to_fit()`, leaving the
global buffer empty. -/
def PDFium_FreeSaveBuffer (_st : SaveState) : SaveState :=
  ⟨[]⟩

/-- One host call touching the save-buffer subsystem, with the engine's
response recorded in the event where the call consults the engine. -/
inductive SaveEvent
  | save (doc : Option Nat) (flags : Int) (engineSave : Option (List Nat))
  | saveWithVersion (doc : Option Nat) (flags version : Int)
      (engineSave : Option (List Nat))
  | freeBuffer
  | getBuffer
  | getSize
deriving DecidableEq, Repr

/-- Effect of one save-buffer call on the global `g_savedPdfBuffer`. -/
def stepEvent (st : SaveState) : SaveEvent → SaveState
  | .save doc flags er => (PDFium_SaveToMemory st doc flags er).1
  | .saveWithVersion doc flags ver er =>
      (PDFium_SaveToMemoryWithVersion st doc flags ver er).1
  | .freeBuffer => PDFium_FreeSaveBuffer st
  | .getBuffer => st
  | .getSize => st

/-- An event is a successful save: a save call with a non-null document
whose engine serialization returned true. -/
def SaveEvent.isSuccess : SaveEvent → Bool
  | .save (some _) _ (some _) => true
  | .saveWithVersion (some _) _ _ (some _) => true
  | _ => false

/-- An event may mutate `g_savedPdfBuffer` (any save call or the free);
the two getters never do. -/
def SaveEvent.mutates : SaveEvent → Bool
  | .save _ _ _ => true
  | .saveWithVersion _ _ _ _ => true
  | .freeBuffer => true
  | .getBuffer => false
  | .getSize => false

theorem stepEvent_of_not_mutates {st : SaveState} {e : SaveEvent}
    (h : e.mutates = false) : stepEvent st e = st := by
  cases e <;> simp [SaveEvent.mutates] at h <;> rfl

theorem foldl_stepEvent_of_not_mutates {evs : List SaveEvent}
    (h : ∀ e ∈ evs, e.mutates = false) (st : SaveState) :
    evs.foldl stepEvent st = st := by
  induction evs generalizing st with
  | nil => rfl
  | cons e rest ih =>
    rw [List.foldl_cons, stepEvent_of_not_mutates (h e (by simp))]
    exact ih (fun x hx => h x (by simp [hx])) st

theorem stepEvent_empty_of_not_success {st : SaveState} {e : SaveEvent}
    (hb : st.buffer = []) (h : e.isSuccess = false) :
    (stepEvent st e).buffer = [] := by
  cases e with
  | save doc flags er =>
    cases doc with
    | none => simpa [stepEvent, PDFium_SaveToMemory] using hb
    | some d =>
      cases er with
      | none => rfl
      | some bs => simp [SaveEvent.isSuccess] at h
  | saveWithVersion doc flags ver er =>
    cases doc with
    | none => simpa [stepEvent, PDFium_SaveToMemoryWithVersion] using hb
    | some d =>
      cases er with
      | none => rfl
      | some bs => simp [SaveEvent.isSuccess] at h
  | freeBuffer => rfl
  | getBuffer => exact hb
  | getSize => exact hb

theorem foldl_stepEvent_empty {evs : List SaveEvent}
    (h : ∀ e ∈ evs, e.isSuccess = false) {st : SaveState}
    (hb : st.buffer = []) : (evs.foldl stepEvent st).buffer = [] := by
  induction evs generalizing st with
  | nil => exact hb
  | cons e rest ih =>
    rw [List.foldl_cons]
    exact ih (fun x hx => h x (by simp [hx]))
      (stepEvent_empty_of_not_success hb (h e (by simp)))

/-! ### Library lifecycle (pdfium_wasm.cpp lines 46-97) -/

/-- The wrapper-owned global `g_libraryInitialized`. -/
structure LibState where
  initialized : Bool
deriving DecidableEq, Repr

/-- One call into the engine's library lifecycle:
`FPDF_InitLibraryWithConfig` or `FPDF_DestroyLibrary`. -/
inductive LibCall
  | initLibraryWithConfig
  | destroyLibrary
deriving DecidableEq, Repr

/-- `PDFium_Init()`: if already initialized, return 1 at once (no engine
call); otherwise call `FPDF_InitLibraryWithConfig`, set the global flag
and return 1. The result lists the engine calls the wrapper emitted. -/
def PDFium_Init (st : LibState) : LibState × Int × List LibCall :=
  if st.initialized then (st, 1, [])
  else (⟨true⟩, 1, [LibCall.initLibraryWithConfig])

/-- `PDFium_Destroy()`: if initialized, call `FPDF_DestroyLibrary` and
reset the global flag; otherwise do nothing. -/
def PDFium_Destroy (st : LibState) : LibState × List LibCall :=
  if st.initialized then (⟨false⟩, [LibCall.destroyLibrary])
  else (st, [])

/-! ### Progressive rendering and the cancel flag
(pdfium_wasm.cpp lines 49-217) -/

/-- The wrapper-owned global `g_renderCancelFlag`, read by the pause
handler `WasmPauseHandler::CheckCancel` during engine render slices. -/
structure RenderState where
  cancelFlag : Bool
deriving DecidableEq, Repr

/-- `PDFium_SetRenderCancelFlag(cancel)`: `g_renderCancelFlag = (cancel != 0)`. -/
def PDFium_SetRenderCancelFlag (_st : RenderState) (cancel : Int) : RenderState :=
  ⟨cancel != 0⟩

/-- `PDFium_GetRenderCancelFlag()`: 1 when the flag is set, else 0. -/
def PDFium_GetRenderCancelFlag (st : RenderState) : Int :=
  if st.cancelFlag then 1 else 0

/-- `WasmPauseHandler::CheckCancel`: nonzero (pause/cancel) when the
global flag is set, zero (continue) otherwise. -/
def checkCancel (st : RenderState) : Int :=
  if st.cancelFlag then 1 else 0

/-- `PDFium_RenderPageBitmap_Start(bitmap, page, ...)`: the body first
executes `g_renderCancelFlag = false`, then calls the engine's
`FPDF_RenderPageBitmap_Start` with the global pause handler and returns
the engine's status. The engine is the oracle argument; execution is
single-threaded, so the flag value the pause handler observes throughout
the engine call is the value the wrapper just wrote. -/
def PDFium_RenderPageBitmap_Start (st : RenderState)
    (bitmap page : Option Nat) (start_x start_y size_x size_y rot flags : Int)
    (engine : Option Nat → Option Nat → Int → Int → Int → Int → Int → Int →
      Bool → Int) : RenderState × Int :=
  let st1 : RenderState := ⟨false⟩
  (st1, engine bitmap page start_x start_y size_x size_y rot flags st1.cancelFlag)

/-- `PDFium_RenderPage_Continue(page)`: forwards to
`FPDF_RenderPage_Continue` with the global pause handler; the flag is not
written, only observed. -/
def PDFium_RenderPage_Continue (st : RenderState) (page : Option Nat)
    (engine : Option Nat → Bool → Int) : RenderState × Int :=
  (st, engine page st.cancelFlag)

/-! ### Null-handle discipline across the boundary
(pdfium_wasm.cpp lines 104-414) -/

/-- One call the wrapper forwards to the document engine; recording these
makes "the wrapper forwarded the call" observable. -/
inductive EngineCall
  | getPageCount (doc : Option Nat)
  | closeDocument (doc : Option Nat)
  | closePage (page : Option Nat)
  | closePageText (textPage : Option Nat)
  | bitmapDestroy (bitmap : Option Nat)
  | findNext (searchHandle : Option Nat)
deriving DecidableEq, Repr

/-- `PDFium_GetPageCount(doc)`: `return FPDF_GetPageCount(doc);` — no null
check, the call is forwarded unconditionally and the engine's value
returned verbatim. -/
def PDFium_GetPageCount (engine : Option Nat → Int) (doc : Option Nat) :
    Int × List EngineCall :=
  (engine doc, [EngineCall.getPageCount doc])

/-- `PDFium_CloseDocument(doc)`: `if (doc) FPDF_CloseDocument(doc);` —
forwards only for a non-null handle. -/
def PDFium_CloseDocument (doc : Option Nat) : List EngineCall :=
  match doc with
  | none => []
  | some d => [EngineCall.closeDocument (some d)]

/-- `PDFium_ClosePage(page)`: `if (page) FPDF_ClosePage(page);`. -/
def PDFium_ClosePage (page : Option Nat) : List EngineCall :=
  match page with
  | none => []
  | some p => [EngineCall.closePage (some p)]

/-- `PDFium_ClosePageText(textPage)`: `if (textPage) FPDFText_ClosePage(...)`. -/
def PDFium_ClosePageText (textPage : Option Nat) : List EngineCall :=
  match textPage with
  | none => []
  | some t => [EngineCall.closePageText (some t)]

/-- `PDFium_BitmapDestroy(bitmap)`: `if (bitmap) FPDFBitmap_Destroy(...)`. -/
def PDFium_BitmapDestroy (bitmap : Option Nat) : List EngineCall :=
  match bitmap with
  | none => []
  | some b => [EngineCall.bitmapDestroy (some b)]

/-- `PDFium_FindNext(searchHandle)`: `return FPDFText_FindNext(searchHandle);`
— no null check, forwarded unconditionally. -/
def PDFium_FindNext (engine : Option Nat → Bool) (searchHandle : Option Nat) :
    Bool × List EngineCall :=
  (engine searchHandle, [EngineCall.findNext searchHandle])

/-! ### Text extraction (pdfium_wasm.cpp lines 266-274 and 368-373)

A TextPage is engine-owned; it is modelled as the list of UTF-16 code
units of its text run. The engine calls are modelled from their public
contracts in fpdf_text.h: `FPDFText_CountChars` returns the number of
characters; `FPDFText_GetText(tp, 0, count, buffer)` writes `count`
UTF-16 values plus a terminating NUL into `buffer` (the caller must
supply at least `count + 1` slots) and returns the number of values
written including the terminator. -/

/-- `FPDFText_CountChars`. -/
def FPDFText_CountChars (tp : List Nat) : Int :=
  toInt32 tp.length

/-- Number of UTF-16 code units `FPDFText_GetText` writes into the
caller's buffer when asked for `count` characters starting at 0. -/
def textGetTextWritten (count : Int) : Int :=
  if count ≤ 0 then 0 else count + 1

/-- `PDFium_GetPageText(textPage, buffer, bufferLen)`: the body computes
`charCount = FPDFText_CountChars(textPage)` and returns
`FPDFText_GetText(textPage, 0, charCount, buffer)`. The `bufferLen`
argument is never read. The result is the pair (count requested from the
engine, code units the engine writes into the caller's buffer). -/
def PDFium_GetPageText (tp : List Nat) (bufferLen : Int) : Int × Int :=
  let charCount := FPDFText_CountChars tp
  (charCount, textGetTextWritten charCount)

/-- `FPDFText_GetBoundedText(tp, l, t, r, b, buffer, bufferLen)`, from its
fpdf_text.h contract: with a null/zero-length buffer it writes nothing
and returns the required length; otherwise it copies at most `bufferLen`
code units and returns the number copied. `required` abstracts the number
of code units of text inside the rectangle. The result is the pair
(return value, code units written). -/
def FPDFText_GetBoundedText (required : Nat) (bufferLen : Int) : Int × Int :=
  if bufferLen ≤ 0 then (toInt32 required, 0)
  else (min (toInt32 required) bufferLen, min (toInt32 required) bufferLen)

/-- `PDFium_GetBoundedText(...)`: forwards all arguments, `bufferLen`
included, to `FPDFText_GetBoundedText` verbatim. -/
def PDFium_GetBoundedText (required : Nat) (bufferLen : Int) : Int × Int :=
  FPDFText_GetBoundedText required bufferLen

/-! ### Claim theorems -/

/-- C1 counterexample: with a previously saved buffer `[1,2,3]` retrievable
via `PDFium_GetSaveBuffer`, a save on a non-null document whose engine
serialization fails does return 0, but the body has already executed
`g_savedPdfBuffer.clear()`, so the previous contents are no longer
retrievable: the getter switches from `some [1,2,3]` to `none`. The same
holds for `PDFium_SaveToMemoryWithVersion`. -/
theorem save_failure_discards_previous_buffer :
    PDFium_GetSaveBuffer ⟨[1, 2, 3]⟩ = some [1, 2, 3]
    ∧ (PDFium_SaveToMemory ⟨[1, 2, 3]⟩ (some 7) 0 none).2 = 0
    ∧ PDFium_GetSaveBuffer
        (PDFium_SaveToMemory ⟨[1, 2, 3]⟩ (some 7) 0 none).1 ≠ some [1, 2, 3]
    ∧ (PDFium_SaveToMemoryWithVersion ⟨[1, 2, 3]⟩ (some 7) 0 17 none).2 = 0
    ∧ PDFium_GetSaveBuffer
        (PDFium_SaveToMemoryWithVersion ⟨[1, 2, 3]⟩ (some 7) 0 17 none).1
        ≠ some [1, 2, 3] := by
  decide

/-- C1 (amended): for every non-null document and flags, if the engine's
save fails, both save entry points return 0 and leave the SaveBuffer
cleared: afterwards `PDFium_GetSaveBuffer` returns the null sentinel and
`PDFium_GetSaveBufferSize` returns 0; any previous buffer contents are
discarded rather than retained. -/
theorem save_failure_returns_zero_and_clears :
    ∀ (st : SaveState) (d : Nat) (flags version : Int),
      PDFium_SaveToMemory st (some d) flags none = (⟨[]⟩, 0)
      ∧ PDFium_SaveToMemoryWithVersion st (some d) flags version none = (⟨[]⟩, 0)
      ∧ PDFium_GetSaveBuffer ⟨[]⟩ = none
      ∧ PDFium_GetSaveBufferSize ⟨[]⟩ = 0 := by
  intro st d flags version
  exact ⟨rfl, rfl, rfl, by decide⟩

/-- C2 counterexample: `PDFium_GetPageCount` called on the null document
handle still forwards the call to the engine — the emitted engine-call
list is nonempty — and returns whatever the engine returns (here 7)
rather than a layer-defined sentinel; `PDFium_FindNext` on a null search
handle forwards likewise. -/
theorem getPageCount_null_forwards_to_engine :
    (PDFium_GetPageCount (fun _ => (0 : Int)) none).2 ≠ []
    ∧ (PDFium_GetPageCount (fun _ => (7 : Int)) none).1 = 7
    ∧ (PDFium_FindNext (fun _ => true) none).2 ≠ [] := by
  refine ⟨by decide, rfl, by decide⟩

/-- C2 (amended): only the close/destroy lifecycle wrappers
(`PDFium_CloseDocument`, `PDFium_ClosePage`, `PDFium_ClosePageText`,
`PDFium_BitmapDestroy`) check their handle for null and no-op without
forwarding; accessors and search calls such as `PDFium_GetPageCount` and
`PDFium_FindNext` forward the call to the engine unconditionally, null
handle included, and return the engine's value verbatim. -/
theorem null_check_only_in_close_wrappers :
    ∀ (f : Option Nat → Int) (g : Option Nat → Bool) (h : Option Nat),
      PDFium_CloseDocument none = []
      ∧ PDFium_ClosePage none = []
      ∧ PDFium_ClosePageText none = []
      ∧ PDFium_BitmapDestroy none = []
      ∧ (PDFium_GetPageCount f h).2 = [EngineCall.getPageCount h]
      ∧ (PDFium_GetPageCount f h).1 = f h
      ∧ (PDFium_FindNext g h).2 = [EngineCall.findNext h]
      ∧ (PDFium_FindNext g h).1 = g h := by
  intro f g h
  exact ⟨rfl, rfl, rfl, rfl, rfl, rfl, rfl, rfl⟩

/-- C3: evaluation at the failing input. On a text page of 5 characters
with `bufferLen = 2`, `PDFium_GetPageText` requests all 5 characters from
the engine — its request ignores `bufferLen` entirely, as the last
conjunct shows — so the engine writes 6 UTF-16 code units (5 characters
plus the terminator) into the caller's 2-unit buffer, exceeding the
stated capacity. `PDFium_GetBoundedText`, by contrast, forwards
`bufferLen` and the engine never writes past it. -/
theorem getPageText_ignores_bufferLen :
    (PDFium_GetPageText [72, 101, 108, 108, 111] 2).1 = 5
    ∧ (PDFium_GetPageText [72, 101, 108, 108, 111] 2).2 = 6
    ∧ 2 < (PDFium_GetPageText [72, 101, 108, 108, 111] 2).2
    ∧ (∀ b1 b2 : Int, PDFium_GetPageText [72, 101, 108, 108, 111] b1
        = PDFium_GetPageText [72, 101, 108, 108, 111] b2)
    ∧ (PDFium_GetBoundedText 5 2).2 ≤ 2 := by
  refine ⟨by decide, by decide, by decide, fun b1 b2 => rfl, by decide⟩

/-- C4: after two successive successful saves, the first producing bytes
`b1` and the second bytes `b2`, the SaveBuffer holds exactly `b2`:
`PDFium_GetSaveBufferSize` equals the value the second save returned, and
`PDFium_GetSaveBuffer` addresses `b2`'s bytes (null only if `b2` is
empty); `b1` no longer occurs in the state. -/
theorem second_save_overwrites_first :
    ∀ (st : SaveState) (d1 d2 : Nat) (f1 f2 : Int) (b1 b2 : List Nat),
      (PDFium_SaveToMemory (PDFium_SaveToMemory st (some d1) f1 (some b1)).1
          (some d2) f2 (some b2)).1.buffer = b2
      ∧ PDFium_GetSaveBufferSize
          (PDFium_SaveToMemory (PDFium_SaveToMemory st (some d1) f1 (some b1)).1
            (some d2) f2 (some b2)).1
        = (PDFium_SaveToMemory (PDFium_SaveToMemory st (some d1) f1 (some b1)).1
            (some d2) f2 (some b2)).2
      ∧ PDFium_GetSaveBuffer
          (PDFium_SaveToMemory (PDFium_SaveToMemory st (some d1) f1 (some b1)).1
            (some d2) f2 (some b2)).1
        = (if b2 = [] then none else some b2) := by
  intro st d1 d2 f1 f2 b1 b2
  exact ⟨rfl, rfl, rfl⟩

/-- C5: calling either save entry point with the null document handle
returns 0 and leaves the SaveBuffer state exactly as it was, for every
prior buffer state and engine behaviour. -/
theorem save_null_doc_is_noop :
    ∀ (st : SaveState) (flags version : Int) (er : Option (List Nat)),
      PDFium_SaveToMemory st none flags er = (st, 0)
      ∧ PDFium_SaveToMemoryWithVersion st none flags version er = (st, 0) := by
  intro st flags version er
  exact ⟨rfl, rfl⟩

/-- C6: `PDFium_RenderPageBitmap_Start` clears the process-wide cancel
flag at entry for every prior flag state and all arguments: the resulting
state has the flag cleared, the engine render is initiated observing the
cleared flag, and starting after a stale `PDFium_SetRenderCancelFlag 1`
behaves identically to starting with the flag clear. -/
theorem render_start_clears_cancel_flag :
    ∀ (st : RenderState) (bitmap page : Option Nat)
      (sx sy w h rot flags : Int)
      (engine : Option Nat → Option Nat → Int → Int → Int → Int → Int → Int →
        Bool → Int),
      (PDFium_RenderPageBitmap_Start st bitmap page sx sy w h rot flags
        engine).1.cancelFlag = false
      ∧ (PDFium_RenderPageBitmap_Start st bitmap page sx sy w h rot flags
          engine).2 = engine bitmap page sx sy w h rot flags false
      ∧ PDFium_GetRenderCancelFlag
          (PDFium_RenderPageBitmap_Start st bitmap page sx sy w h rot flags
            engine).1 = 0
      ∧ PDFium_RenderPageBitmap_Start (PDFium_SetRenderCancelFlag st 1)
          bitmap page sx sy w h rot flags engine
        = PDFium_RenderPageBitmap_Start st bitmap page sx sy w h rot flags
            engine := by
  intro st bitmap page sx sy w h rot flags engine
  exact ⟨rfl, rfl, rfl, rfl⟩

/-- C7 counterexample: a successful save returns 4 (bytes `%PDF`), and
after a later `PDFium_FreeSaveBuffer` — a point "after at least one
successful save" — `PDFium_GetSaveBufferSize` returns 0, not the 4 the
most recent successful save returned. -/
theorem buffer_size_stale_after_free :
    (PDFium_SaveToMemory ⟨[]⟩ (some 1) 0 (some [37, 80, 68, 70])).2 = 4
    ∧ PDFium_GetSaveBufferSize
        (PDFium_FreeSaveBuffer
          (PDFium_SaveToMemory ⟨[]⟩ (some 1) 0 (some [37, 80, 68, 70])).1) = 0
    ∧ (0 : Int) ≠ 4 := by
  refine ⟨by decide, by decide, by decide⟩

/-- C7 (amended): after a successful save, `PDFium_GetSaveBufferSize`
returns exactly the value that save returned, and keeps doing so at every
later point as long as no buffer-mutating call (another save, successful
or failed, or `PDFium_FreeSaveBuffer`) intervenes. -/
theorem buffer_size_mirrors_last_save :
    ∀ (st : SaveState) (d : Nat) (flags : Int) (bs : List Nat)
      (evs : List SaveEvent),
      (∀ e ∈ evs, e.mutates = false) →
      PDFium_GetSaveBufferSize
          (evs.foldl stepEvent (PDFium_SaveToMemory st (some d) flags (some bs)).1)
        = (PDFium_SaveToMemory st (some d) flags (some bs)).2 := by
  intro st d flags bs evs h
  rw [foldl_stepEvent_of_not_mutates h]
  rfl

/-- C7 witness: concrete instance with two getter events between the save
and the size query. -/
theorem buffer_size_mirrors_last_save_witness :
    (∀ e ∈ [SaveEvent.getBuffer, SaveEvent.getSize],
      SaveEvent.mutates e = false)
    ∧ PDFium_GetSaveBufferSize
        (([SaveEvent.getBuffer, SaveEvent.getSize]).foldl stepEvent
          (PDFium_SaveToMemory ⟨[]⟩ (some 1) 0 (some [9, 9])).1)
      = (PDFium_SaveToMemory ⟨[]⟩ (some 1) 0 (some [9, 9])).2 :=
  ⟨by decide,
    buffer_size_mirrors_last_save ⟨[]⟩ 1 0 [9, 9]
      [SaveEvent.getBuffer, SaveEvent.getSize] (by decide)⟩

/-- C8: `PDFium_GetSaveBuffer` returns the null sentinel on the empty
buffer state, and after `PDFium_FreeSaveBuffer` every subsequent call
sequence containing no successful save leaves `PDFium_GetSaveBuffer`
returning the null sentinel. -/
theorem free_buffer_then_null_until_save :
    ∀ (st : SaveState) (evs : List SaveEvent),
      (∀ e ∈ evs, e.isSuccess = false) →
      PDFium_GetSaveBuffer (SaveState.mk []) = none
      ∧ PDFium_GetSaveBuffer
          (evs.foldl stepEvent (PDFium_FreeSaveBuffer st)) = none := by
  intro st evs h
  refine ⟨rfl, ?_⟩
  have hb : (evs.foldl stepEvent (PDFium_FreeSaveBuffer st)).buffer = [] :=
    foldl_stepEvent_empty h rfl
  unfold PDFium_GetSaveBuffer
  rw [if_pos hb]

/-- C8 witness: a free followed by a null-doc save, two failed saves and a
getter, none of which is a successful save. -/
theorem free_buffer_then_null_until_save_witness :
    (∀ e ∈ [SaveEvent.save none 0 (some [3]), SaveEvent.save (some 1) 0 none,
        SaveEvent.saveWithVersion (some 2) 0 17 none, SaveEvent.freeBuffer,
        SaveEvent.getBuffer], SaveEvent.isSuccess e = false)
    ∧ (PDFium_GetSaveBuffer (SaveState.mk []) = none
       ∧ PDFium_GetSaveBuffer
          (([SaveEvent.save none 0 (some [3]), SaveEvent.save (some 1) 0 none,
            SaveEvent.saveWithVersion (some 2) 0 17 none, SaveEvent.freeBuffer,
            SaveEvent.getBuffer]).foldl stepEvent
            (PDFium_FreeSaveBuffer ⟨[1, 2]⟩)) = none) :=
  ⟨by decide,
    free_buffer_then_null_until_save ⟨[1, 2]⟩
      [SaveEvent.save none 0 (some [3]), SaveEvent.save (some 1) 0 none,
        SaveEvent.saveWithVersion (some 2) 0 17 none, SaveEvent.freeBuffer,
        SaveEvent.getBuffer] (by decide)⟩

/-- C9: in every state whose buffer length fits a 32-bit int (all states
reachable in the 32-bit address space), `PDFium_GetSaveBuffer` returns the
null sentinel exactly when `PDFium_GetSaveBufferSize` returns 0; both
getters read the one global vector, so every mutating operation preserves
the consistency. -/
theorem save_buffer_pointer_size_consistent :
    ∀ st : SaveState, st.buffer.length < 2 ^ 31 →
      (PDFium_GetSaveBuffer st = none ↔ PDFium_GetSaveBufferSize st = 0) := by
  intro st h
  unfold PDFium_GetSaveBuffer PDFium_GetSaveBufferSize
  rw [toInt32_of_lt h]
  by_cases hb : st.buffer = []
  · simp [hb]
  · rw [if_neg hb]
    simp [List.length_eq_zero, hb]

/-- C9 witness: the consistency at a concrete two-byte state. -/
theorem save_buffer_pointer_size_consistent_witness :
    (SaveState.mk [37, 80]).buffer.length < 2 ^ 31
    ∧ (PDFium_GetSaveBuffer ⟨[37, 80]⟩ = none
        ↔ PDFium_GetSaveBufferSize ⟨[37, 80]⟩ = 0) :=
  ⟨by decide, save_buffer_pointer_size_consistent ⟨[37, 80]⟩ (by decide)⟩

/-- C10: `PDFium_Init` returns 1 from every state; a second `PDFium_Init`
on an initialized library changes nothing and emits no engine call;
`PDFium_Destroy` on an uninitialized library is a no-op; and a second
`PDFium_Destroy` immediately after any `PDFium_Destroy` does nothing. -/
theorem init_returns_one_and_idempotent :
    ∀ st : LibState,
      (PDFium_Init st).2.1 = 1
      ∧ PDFium_Init ⟨true⟩ = (⟨true⟩, 1, [])
      ∧ PDFium_Init (PDFium_Init st).1 = ((PDFium_Init st).1, 1, [])
      ∧ PDFium_Destroy ⟨false⟩ = (⟨false⟩, [])
      ∧ PDFium_Destroy (PDFium_Destroy st).1 = ((PDFium_Destroy st).1, []) := by
  intro st
  rcases st with ⟨b⟩
  cases b <;> exact ⟨rfl, rfl, rfl, rfl, rfl⟩
